import Mathlib

/-!
Verification of the kmerkit pipeline specification against the code in
src/kmerkit/__main__.py (the CLI layer) and, for core operations whose
modules are not part of the staged sources (kinit, kcount, kfilter,
kextract, utils), against definitions modelled from the specification
text. Machine integers are modelled as Int, Python floats as rationals,
fallible operations as Except values.
-/

/- Section 1: Python exception flow of the CLI commands (init, count).
The init command runs init_project inside a try block whose handler is the
single expression statement typer.Abort(); the count command runs
counter.run inside a try block whose handler is typer.Abort(exc). -/

/-- Exceptions that can propagate out of a CLI command body: the kmerkit
core error class KmerkitError, the typer Abort exception, or any other
exception. -/
inductive PyExc where
  | kmerkitError : PyExc
  | abortExc : PyExc
  | otherExc : PyExc
deriving DecidableEq

/-- Outcome of executing a Python block: none means it completed normally,
some e means exception e is propagating. -/
def PyOutcome : Type := Option PyExc

/-- Embeds a Python try/except KmerkitError block: a propagating
KmerkitError is replaced by the outcome of the handler block; any other
exception keeps propagating; normal completion stays normal. -/
def tryExceptKmerkit (body : PyOutcome) (handler : PyOutcome) : PyOutcome :=
  match body with
  | none => none
  | some PyExc.kmerkitError => handler
  | some e => some e

/-- Embeds the handler statement of the init command, the bare expression
statement  typer.Abort() : the Abort exception object is constructed and
immediately discarded, and since there is no raise the handler completes
normally. -/
def init_handler : PyOutcome := none

/-- Embeds the handler statement of the count command, the bare expression
statement  typer.Abort(exc) : like init_handler it constructs an Abort
object without raising it, so the handler completes normally. -/
def count_handler : PyOutcome := none

/-- Outcome of the init command around its core call init_project, whose
own outcome is the argument. -/
def init_cmd (core : PyOutcome) : PyOutcome :=
  tryExceptKmerkit core init_handler

/-- Outcome of the count command around its core call counter.run, whose
own outcome is the argument. -/
def count_cmd (core : PyOutcome) : PyOutcome :=
  tryExceptKmerkit core count_handler

/-- Process exit status of a typer command: 0 when the command body
completes normally, nonzero (1) when an exception propagates out of it. -/
def exit_code (outcome : PyOutcome) : Nat :=
  match outcome with
  | none => 0
  | some _ => 1

/- Section 2: typer integer-option validation for the count and extract
commands, as declared in the source. An option with a min bound rejects
any smaller value before the command body runs; an option without one
accepts every integer. -/

/-- A typer integer option: its declared default and its optional minimum
bound. -/
structure IntOpt where
  default : Int
  minBound : Option Int

/-- Whether the option accepts a supplied value: values below a declared
minimum bound are rejected, everything else is accepted. -/
def IntOpt.accepts (o : IntOpt) (v : Int) : Bool :=
  match o.minBound with
  | none => true
  | some m => decide (m ≤ v)

/-- Source: kmer_size is typer.Option(17, min=2). -/
def kmer_size_opt : IntOpt := { default := 17, minBound := some 2 }

/-- Source: min_depth is typer.Option(1, min=1). -/
def min_depth_opt : IntOpt := { default := 1, minBound := some 1 }

/-- Source: max_depth is typer.Option(int(1e9), min=1). -/
def max_depth_opt : IntOpt := { default := 1000000000, minBound := some 1 }

/-- Source: max_count is typer.Option(255, min=1). -/
def max_count_opt : IntOpt := { default := 255, minBound := some 1 }

/-- Source: threads is typer.Option(2), with no min bound. -/
def threads_opt : IntOpt := { default := 2, minBound := none }

/-- Source: min_kmers_per_read is typer.Option(1), with no min bound. -/
def min_kmers_per_read_opt : IntOpt := { default := 1, minBound := none }

/-- Whether an invocation of the count command passes option validation
(all five integer options accept their supplied values). -/
def countAccepts (ks md xd mc th : Int) : Bool :=
  kmer_size_opt.accepts ks && min_depth_opt.accepts md
    && max_depth_opt.accepts xd && max_count_opt.accepts mc
    && threads_opt.accepts th

/-- Whether an invocation of the extract command passes option validation
on min_kmers_per_read. -/
def extract_cmd_accepts (m : Int) : Bool :=
  min_kmers_per_read_opt.accepts m

/-- Arguments the extract command hands to the Kextract constructor
(source lines 273-278), plus the force flag handed to run. -/
structure KextractArgs where
  json_file : String
  samples : List String
  min_kmers_per_read : Int
  keep_paired : Bool

/-- The Kextract constructor arguments and the run argument built by the
extract command from its CLI parameters: every parameter is passed through
unchanged, with no further validation. -/
def extract_cmd_invocation (json_file : String) (samples : List String)
    (m : Int) (kp : Bool) (force : Bool) : KextractArgs × Bool :=
  ({ json_file := json_file, samples := samples,
     min_kmers_per_read := m, keep_paired := kp }, force)

/- Section 3: the filter stage engine and the filter CLI command.
The kfilter module is not among the staged sources; its classification of
a k-mer is modelled from specification section 4.5. The CLI wiring (which
arguments the filter command passes to the Kfilter constructor) is taken
from the source. -/

/-- One row of the trait table: a sample name and its binary group. -/
structure TraitRow where
  sample : String
  group : Fin 2
deriving DecidableEq

/-- Per-group map built by the filter command from a two-float CLI tuple:
group 0 maps to the first component and group 1 to the second, mirroring
the dict the source builds from the tuple. -/
def pairMap (a b : ℚ) : Fin 2 → ℚ :=
  fun g => if g = 0 then a else b

/-- Threshold parameters of a filter run, as in the specification
contract: an early-drop coverage bound, per-group lower and upper mapping
bounds, per-group canonical-form bounds, and the canonical flag. -/
structure FilterParams where
  min_cov : ℚ
  min_map : Fin 2 → ℚ
  max_map : Fin 2 → ℚ
  min_map_canon : Fin 2 → ℚ
  canonical : Bool

/-- Modelled from the spec: the per-k-mer classification of Kfilter.run
(specification section 4.5, steps 2 to 4; the kfilter module is not under
the staged sources, only its CLI caller is). Given the group coverage
fractions of one k-mer, the k-mer is retained when it is a candidate
(step 2), its coverage fraction lies in the closed per-group interval
(step 3), and, when canonicalization is enabled, it meets the per-group
canonical-form bound (step 4). -/
def filter_retain (p : FilterParams) (cov : Fin 2 → ℚ) : Bool :=
  (decide (p.min_cov ≤ cov 0) || decide (p.min_cov ≤ cov 1))
    && decide (p.min_map 0 ≤ cov 0) && decide (cov 0 ≤ p.max_map 0)
    && decide (p.min_map 1 ≤ cov 1) && decide (cov 1 ≤ p.max_map 1)
    && (if p.canonical then
          decide (p.min_map_canon 0 ≤ cov 0) && decide (p.min_map_canon 1 ≤ cov 1)
        else true)

/-- Modelled from the spec: step 1 of Kfilter.run computes, per group, the
fraction of that group's samples in which the k-mer is present with depth
at least the count-stage minimum depth; a group with no samples yields
fraction 0. -/
def covFrac (traits : List TraitRow) (depth : String → Nat) (min_depth : Nat)
    (g : Fin 2) : ℚ :=
  let grp := traits.filter (fun t => decide (t.group = g))
  if grp.length = 0 then 0
  else (grp.filter (fun t => decide (min_depth ≤ depth t.sample))).length / grp.length

/-- Arguments the filter command hands to the Kfilter constructor (source
lines 234 to 241). -/
structure KfilterArgs where
  json_file : String
  traits : List TraitRow
  min_cov : ℚ
  min_map : Fin 2 → ℚ
  max_map : Fin 2 → ℚ
  min_map_canon : Fin 2 → ℚ

/-- The Kfilter constructor arguments the filter command builds from its
CLI parameters: the traits CSV is parsed, the two-float tuples become
per-group maps, min_map_canon is fixed at 0 for group 0 and one half for
group 1, and the force flag is never consulted (the constructed engine is
then run with no further arguments). parse_csv stands for the external
CSV reader get_traits_dict_from_csv. -/
def filter_cmd_invocation (parse_csv : String → List TraitRow)
    (json_file traits_csv : String) (min_cov : ℚ)
    (min_map max_map : ℚ × ℚ) (force : Bool) : KfilterArgs :=
  { json_file := json_file
    traits := parse_csv traits_csv
    min_cov := min_cov
    min_map := pairMap min_map.1 min_map.2
    max_map := pairMap max_map.1 max_map.2
    min_map_canon := pairMap 0 (1 / 2) }

/- Section 4: the project manifest and project initialization.
The kinit module is not among the staged sources; init_project is
modelled from specification section 4.2. -/

/-- Core error taxonomy of the specification (section 7), all raised as
subclasses of KmerkitError. -/
inductive KErr where
  | AlreadyExistsError : KErr
  | PrerequisiteError : KErr
  | SelectorAmbiguousError : KErr
  | ValidationError : KErr
deriving DecidableEq

/-- Completed filter-stage state recorded in the manifest: the samples of
each binary group. -/
structure FilterState where
  group0 : List String
  group1 : List String
deriving DecidableEq

/-- The persisted project manifest: identity, the sample table, and one
completion slot per stage (none means the stage has not completed). -/
structure Manifest where
  name : String
  workdir : String
  samples : List (String × List String)
  stage_kcount : Option (List (String × Nat))
  stage_kfilter : Option FilterState
  stage_kextract : Option (List String)
deriving DecidableEq

/-- Modelled from the spec: init_project of the kinit module
(specification section 4.2, initialize). When a manifest already exists at
the target path and force is false it fails with AlreadyExistsError;
otherwise it produces a fresh manifest holding the sample table and empty
stage state. -/
def init_project (name workdir : String)
    (fastq_dict : List (String × List String)) (force : Bool)
    (existing : Option Manifest) : Except KErr Manifest :=
  if existing.isSome && !force then Except.error KErr.AlreadyExistsError
  else Except.ok
    { name := name, workdir := workdir, samples := fastq_dict,
      stage_kcount := none, stage_kfilter := none, stage_kextract := none }

/-- Effect of init_project on the manifest store: on error the stored
manifest is left as it was; on success the fresh manifest replaces it. -/
def init_store (name workdir : String)
    (fastq_dict : List (String × List String)) (force : Bool)
    (existing : Option Manifest) : Except KErr Unit × Option Manifest :=
  match init_project name workdir fastq_dict force existing with
  | Except.error e => (Except.error e, existing)
  | Except.ok m => (Except.ok (), some m)

/- Section 5: the extract stage selector and prerequisite check.
The kextract module is not among the staged sources; selector resolution
and the group prerequisite are modelled from specification section 4.6. -/

/-- The three selector forms of the extract stage. -/
inductive Selector where
  | sample (name : String) : Selector
  | group (g : Nat) : Selector
  | path (p : String) : Selector
deriving DecidableEq

/-- Modelled from the spec: a token is a group id when it is a single
small non-negative integer naming one of the two filter groups. -/
def parseGroupId (token : String) : Option Nat :=
  if token = ("0") then some 0
  else if token = ("1") then some 1
  else none

/-- Modelled from the spec: selector-token resolution of the extract
stage (specification section 4.6). A token matching a sample name known
to the manifest always resolves to that sample; otherwise a token that is
both a valid group id and an existing file-system path is ambiguous; a
valid group id alone resolves to the group form, an existing path alone
to the path form, and anything else is a validation error. -/
def resolveToken (knownSamples : List String) (existsPath : String → Bool)
    (token : String) : Except KErr Selector :=
  if token ∈ knownSamples then Except.ok (Selector.sample token)
  else
    match parseGroupId token, existsPath token with
    | some _, true => Except.error KErr.SelectorAmbiguousError
    | some g, false => Except.ok (Selector.group g)
    | none, true => Except.ok (Selector.path token)
    | none, false => Except.error KErr.ValidationError

/-- Modelled from the spec: the samples an extract selector targets. A
group selector requires a completed filter stage and fails with
PrerequisiteError when the manifest has none; the other forms name their
target directly. -/
def extract_targets (man : Manifest) (sel : Selector) :
    Except KErr (List String) :=
  match sel with
  | Selector.sample n => Except.ok [n]
  | Selector.group g =>
    match man.stage_kfilter with
    | none => Except.error KErr.PrerequisiteError
    | some fs => Except.ok (if g = 0 then fs.group0 else fs.group1)
  | Selector.path p => Except.ok [p]

/-- Modelled from the spec: the extract command on one selector token. The
token is resolved against the manifest sample table; the resolved selector
is expanded to target samples; on success one extracted-read output file
per target is produced, and on any error no output is produced. -/
def kextract_cmd (man : Manifest) (existsPath : String → Bool)
    (token : String) : Except KErr Unit × List String :=
  match resolveToken (man.samples.map Prod.fst) existsPath token with
  | Except.error e => (Except.error e, [])
  | Except.ok sel =>
    match extract_targets man sel with
    | Except.error e => (Except.error e, [])
    | Except.ok targets =>
      (Except.ok (), targets.map (fun s => s ++ ("_kextracted.fastq")))

/- Section 6: the sample resolver.
The utils module holding get_fastq_dict_from_path is not among the staged
sources; name derivation and read-pair grouping are modelled from
specification section 4.1, with file names as lists of characters. -/

/-- Modelled from the spec: the greatest index at which the delimiter
occurs in a name (an occurrence at index i means the delimiter is a
prefix of the suffix of the name starting at i), or none when the
delimiter does not occur. -/
def lastOcc (delim : List Char) : List Char → Option Nat
  | [] => if delim = [] then some 0 else none
  | c :: rest =>
    match lastOcc delim rest with
    | some j => some (j + 1)
    | none => if delim <+: (c :: rest) then some 0 else none

/-- Modelled from the spec: the sample name derived from a base file
name, the portion before the last occurrence of the delimiter, or the
whole name when the delimiter does not occur. -/
def get_sample_name (delim name : List Char) : List Char :=
  match lastOcc delim name with
  | some i => name.take i
  | none => name

/-- Modelled from the spec: the portion of a base file name after the
last occurrence of the delimiter (empty when the delimiter does not
occur). -/
def after_delim (delim name : List Char) : List Char :=
  match lastOcc delim name with
  | some i => name.drop (i + delim.length)
  | none => []

/-- Modelled from the spec: the read-pair marker of a file, the code of
the first character after the delimiter (the R1/R2 convention puts the
digit 1 or 2 there under the default delimiter); 0 when nothing follows
the delimiter. -/
def pair_marker (delim name : List Char) : Nat :=
  match after_delim delim name with
  | [] => 0
  | c :: _ => c.toNat

/-- Insert a file into a marker-sorted list of files, keeping markers
ascending. -/
def insertByMarker (delim f : List Char) :
    List (List Char) → List (List Char)
  | [] => [f]
  | g :: rest =>
    if pair_marker delim f ≤ pair_marker delim g then f :: g :: rest
    else g :: insertByMarker delim f rest

/-- Sort a list of files by ascending pair marker (insertion sort). -/
def sortByMarker (delim : List Char) (fs : List (List Char)) :
    List (List Char) :=
  fs.foldr (insertByMarker delim) []

/-- The distinct sample names derived from a file list, first occurrence
kept. -/
def sampleNames (delim : List Char) (files : List (List Char)) :
    List (List Char) :=
  (files.map (get_sample_name delim)).dedup

/-- Modelled from the spec: the fastq dictionary of
get_fastq_dict_from_path, mapping each derived sample name to the files
that derive it, sorted by ascending pair marker so an R1 file precedes
its R2 mate. -/
def get_fastq_dict (delim : List Char) (files : List (List Char)) :
    List (List Char × List (List Char)) :=
  (sampleNames delim files).map (fun n =>
    (n, sortByMarker delim
      (files.filter (fun f => decide (get_sample_name delim f = n)))))

/- Helper lemmas about the last occurrence of the delimiter. -/

theorem lastOcc_cons_some (delim : List Char) (c : Char) (rest : List Char)
    (j : Nat) (h : lastOcc delim rest = some j) :
    lastOcc delim (c :: rest) = some (j + 1) := by
  unfold lastOcc
  rw [h]

theorem lastOcc_cons_none (delim : List Char) (c : Char) (rest : List Char)
    (h : lastOcc delim rest = none) :
    lastOcc delim (c :: rest)
      = if delim <+: (c :: rest) then some 0 else none := by
  unfold lastOcc
  rw [h]

theorem lastOcc_none_spec (delim : List Char) (hd : delim ≠ []) :
    ∀ s : List Char, lastOcc delim s = none →
      ∀ i : Nat, ¬ delim <+: s.drop i := by
  intro s
  induction s with
  | nil =>
    intro _ i hpre
    rw [List.drop_nil] at hpre
    exact hd (List.prefix_nil.mp hpre)
  | cons c rest ih =>
    intro h i
    cases hrec : lastOcc delim rest with
    | some j =>
      rw [lastOcc_cons_some delim c rest j hrec] at h
      exact absurd h (by simp)
    | none =>
      rw [lastOcc_cons_none delim c rest hrec] at h
      by_cases hp : delim <+: (c :: rest)
      · rw [if_pos hp] at h
        exact absurd h (by simp)
      · cases i with
        | zero => simpa using hp
        | succ m =>
          rw [List.drop_succ_cons]
          exact ih hrec m

theorem lastOcc_some_spec (delim : List Char) (hd : delim ≠ []) :
    ∀ s : List Char, ∀ k : Nat, lastOcc delim s = some k →
      delim <+: s.drop k ∧ ∀ j : Nat, k < j → ¬ delim <+: s.drop j := by
  intro s
  induction s with
  | nil =>
    intro k h
    simp [lastOcc, hd] at h
  | cons c rest ih =>
    intro k h
    cases hrec : lastOcc delim rest with
    | some j =>
      rw [lastOcc_cons_some delim c rest j hrec] at h
      injection h with h
      subst h
      obtain ⟨h1, h2⟩ := ih j hrec
      refine ⟨by rw [List.drop_succ_cons]; exact h1, ?_⟩
      intro j2 hj2
      cases j2 with
      | zero => omega
      | succ m =>
        rw [List.drop_succ_cons]
        exact h2 m (by omega)
    | none =>
      rw [lastOcc_cons_none delim c rest hrec] at h
      by_cases hp : delim <+: (c :: rest)
      · rw [if_pos hp] at h
        injection h with h
        subst h
        refine ⟨by simpa using hp, ?_⟩
        intro j2 hj2
        cases j2 with
        | zero => omega
        | succ m =>
          rw [List.drop_succ_cons]
          exact lastOcc_none_spec delim hd rest hrec m
      · rw [if_neg hp] at h
        exact absurd h (by simp)

/- Claim theorems. -/

/-- C1: the claim states that a KmerkitError raised by init_project or
Kcount.run makes the init or count command exit with a non-zero status.
Evaluating the CLI model at such a failure shows both commands exit with
status 0: the except blocks evaluate typer.Abort() and typer.Abort(exc)
as bare expression statements without raising them, so the core error is
swallowed and the command returns normally. -/
theorem C1_core_error_exit_code_zero :
    exit_code (init_cmd (some PyExc.kmerkitError)) = 0
    ∧ exit_code (count_cmd (some PyExc.kmerkitError)) = 0 :=
  ⟨rfl, rfl⟩

/-- C2: every k-mer the filter stage retains has, for both groups, a
coverage fraction within the closed per-group interval from min_map to
max_map, for all threshold settings. -/
theorem C2_retained_within_map_bounds (p : FilterParams) (cov : Fin 2 → ℚ)
    (h : filter_retain p cov = true) :
    ∀ g : Fin 2, p.min_map g ≤ cov g ∧ cov g ≤ p.max_map g := by
  rw [Fin.forall_fin_two]
  simp only [filter_retain, Bool.and_eq_true, Bool.or_eq_true,
    decide_eq_true_eq] at h
  exact ⟨⟨h.1.1.1.1.2, h.1.1.1.2⟩, ⟨h.1.1.2, h.1.2⟩⟩

/-- Witness for C2 at a concrete retained k-mer. -/
theorem C2_retained_within_map_bounds_witness :
    filter_retain
        { min_cov := 0, min_map := pairMap 0 0, max_map := pairMap 1 1,
          min_map_canon := pairMap 0 0, canonical := false }
        (fun _ => 0) = true
    ∧ ((0:ℚ) ≤ 0 ∧ (0:ℚ) ≤ 1) ∧ ((0:ℚ) ≤ 0 ∧ (0:ℚ) ≤ 1) := by
  refine ⟨by decide, ?_⟩
  have h := C2_retained_within_map_bounds
    { min_cov := 0, min_map := pairMap 0 0, max_map := pairMap 1 1,
      min_map_canon := pairMap 0 0, canonical := false }
    (fun _ => 0) (by decide)
  exact ⟨h 0, h 1⟩

/-- C3: the filter run takes a caller-supplied per-group canonical-form
threshold pair, and with canonicalization enabled every retained k-mer
meets exactly those supplied values: for every pair a, b the canonical
check enforces a on group 0 and b on group 1. -/
theorem C3_min_map_canon_respected (a b mc : ℚ) (mm xm : Fin 2 → ℚ)
    (cov : Fin 2 → ℚ)
    (h : filter_retain
        { min_cov := mc, min_map := mm, max_map := xm,
          min_map_canon := pairMap a b, canonical := true } cov = true) :
    a ≤ cov 0 ∧ b ≤ cov 1 := by
  simp only [filter_retain, pairMap, Bool.and_eq_true, Bool.or_eq_true,
    decide_eq_true_eq, if_true] at h
  have hcanon := h.2
  simp at hcanon
  exact hcanon

/-- Witness for C3 at a concrete retained k-mer. -/
theorem C3_min_map_canon_respected_witness :
    filter_retain
        { min_cov := 0, min_map := pairMap 0 0, max_map := pairMap 1 1,
          min_map_canon := pairMap 0 0, canonical := true }
        (fun _ => 0) = true
    ∧ ((0:ℚ) ≤ 0 ∧ (0:ℚ) ≤ 0) :=
  ⟨by decide,
   C3_min_map_canon_respected 0 0 0 (pairMap 0 0) (pairMap 1 1)
     (fun _ => 0) (by decide)⟩

/-- C4 counterexample: the claim states every count invocation with
threads below 1 is rejected at the interface, but the invocation with
threads 0 (and all other options at legal values) passes option
validation, because the threads option declares no minimum bound. -/
theorem C4_threads_not_validated :
    (0:Int) < 1 ∧ countAccepts 17 1 1000000000 255 0 = true := by
  decide

/-- C4 amended: the count command enforces kmer_size at least 2 and
min_depth, max_depth and max_count at least 1 at the interface, and
accepts exactly those invocations; threads is not constrained. -/
theorem C4_count_validation_amended (ks md xd mc th : Int) :
    countAccepts ks md xd mc th = true
      ↔ (2 ≤ ks ∧ 1 ≤ md ∧ 1 ≤ xd ∧ 1 ≤ mc) := by
  simp [countAccepts, IntOpt.accepts, kmer_size_opt, min_depth_opt,
    max_depth_opt, max_count_opt, threads_opt, and_assoc]

/-- C5 counterexample: the claim states every extract invocation with
min_kmers_per_read below 1 is rejected at the interface, but the value 0
passes option validation, because the option declares no minimum bound. -/
theorem C5_min_kmers_zero_accepted :
    (0:Int) < 1 ∧ extract_cmd_accepts 0 = true := by
  decide

/-- C5 amended: the extract command enforces no bound on
min_kmers_per_read at the interface; every integer value is accepted and
passed through unchanged to the Kextract constructor. -/
theorem C5_extract_validation_amended (json_file : String)
    (samples : List String) (m : Int) (kp force : Bool) :
    extract_cmd_accepts m = true
    ∧ (extract_cmd_invocation json_file samples m kp force).1.min_kmers_per_read
        = m :=
  ⟨rfl, rfl⟩

/-- C6: for every non-empty delimiter, the sample name derived from a
file name is the portion before the last occurrence of the delimiter
(whole name when the delimiter does not occur anywhere), and two files
deriving the same sample name whose after-delimiter portions carry the
markers 1 and 2 are grouped as the ordered pair with the R1 file first,
whichever order they are listed in. -/
theorem C6_sample_name_derivation (delim : List Char) (hd : delim ≠ []) :
    (∀ name : List Char,
      ((∀ i : Nat, ¬ delim <+: name.drop i) →
        get_sample_name delim name = name)
      ∧ (∀ i : Nat, delim <+: name.drop i →
          ∃ k : Nat, get_sample_name delim name = name.take k
            ∧ delim <+: name.drop k
            ∧ ∀ j : Nat, k < j → ¬ delim <+: name.drop j))
    ∧ (∀ f1 f2 s : List Char,
        get_sample_name delim f1 = s → get_sample_name delim f2 = s →
        pair_marker delim f1 = (Char.toNat ('1')) →
        pair_marker delim f2 = (Char.toNat ('2')) →
        get_fastq_dict delim [f1, f2] = [(s, [f1, f2])]
        ∧ get_fastq_dict delim [f2, f1] = [(s, [f1, f2])]) := by
  constructor
  · intro name
    constructor
    · intro hno
      cases hocc : lastOcc delim name with
      | none => simp [get_sample_name, hocc]
      | some k =>
        exact absurd (lastOcc_some_spec delim hd name k hocc).1 (hno k)
    · intro i hi
      cases hocc : lastOcc delim name with
      | none => exact absurd hi (lastOcc_none_spec delim hd name hocc i)
      | some k =>
        obtain ⟨h1, h2⟩ := lastOcc_some_spec delim hd name k hocc
        exact ⟨k, by simp [get_sample_name, hocc], h1, h2⟩
  · intro f1 f2 s h1 h2 m1 m2
    have hnames12 : sampleNames delim [f1, f2] = [s] := by
      simp [sampleNames, h1, h2]
    have hnames21 : sampleNames delim [f2, f1] = [s] := by
      simp [sampleNames, h1, h2]
    have hfil12 :
        [f1, f2].filter (fun f => decide (get_sample_name delim f = s))
          = [f1, f2] := by
      simp [List.filter, h1, h2]
    have hfil21 :
        [f2, f1].filter (fun f => decide (get_sample_name delim f = s))
          = [f2, f1] := by
      simp [List.filter, h1, h2]
    have hsort12 : sortByMarker delim [f1, f2] = [f1, f2] := by
      simp [sortByMarker, insertByMarker, m1, m2]
    have hsort21 : sortByMarker delim [f2, f1] = [f1, f2] := by
      simp [sortByMarker, insertByMarker, m1, m2]
    constructor
    · simp only [get_fastq_dict, hnames12, List.map, hfil12, hsort12]
    · simp only [get_fastq_dict, hnames21, List.map, hfil21, hsort21]

/-- Witness for C6 at the default delimiter. -/
theorem C6_sample_name_derivation_witness :
    (∀ name : List Char,
      ((∀ i : Nat, ¬ (['_', 'R'] : List Char) <+: name.drop i) →
        get_sample_name ['_', 'R'] name = name)
      ∧ (∀ i : Nat, (['_', 'R'] : List Char) <+: name.drop i →
          ∃ k : Nat, get_sample_name ['_', 'R'] name = name.take k
            ∧ (['_', 'R'] : List Char) <+: name.drop k
            ∧ ∀ j : Nat, k < j → ¬ (['_', 'R'] : List Char) <+: name.drop j))
    ∧ (∀ f1 f2 s : List Char,
        get_sample_name ['_', 'R'] f1 = s →
        get_sample_name ['_', 'R'] f2 = s →
        pair_marker ['_', 'R'] f1 = (Char.toNat ('1')) →
        pair_marker ['_', 'R'] f2 = (Char.toNat ('2')) →
        get_fastq_dict ['_', 'R'] [f1, f2] = [(s, [f1, f2])]
        ∧ get_fastq_dict ['_', 'R'] [f2, f1] = [(s, [f1, f2])]) :=
  C6_sample_name_derivation ['_', 'R'] (by decide)

/-- C7: re-running project initialization without force over an existing
manifest fails with AlreadyExistsError and leaves the stored manifest
unchanged; with force it always succeeds and stores a fresh manifest
whose stage state is empty. -/
theorem C7_init_force_semantics (name workdir : String)
    (fd : List (String × List String)) (m : Manifest) :
    init_store name workdir fd false (some m)
        = (Except.error KErr.AlreadyExistsError, some m)
    ∧ ∀ existing : Option Manifest,
        init_store name workdir fd true existing
          = (Except.ok (),
             some { name := name, workdir := workdir, samples := fd,
                    stage_kcount := none, stage_kfilter := none,
                    stage_kextract := none }) :=
  ⟨rfl, fun existing => by cases existing <;> rfl⟩

/-- C8: selector tokens resolve by strict precedence: a token matching a
known sample name always resolves to that sample; otherwise a valid
group id that is not a path resolves to the group form, a path that is
not a group id resolves to the path form, and SelectorAmbiguousError is
raised only when the token is both a valid group id and an existing
path (and matches no sample name). -/
theorem C8_selector_precedence (knownSamples : List String)
    (existsPath : String → Bool) (token : String) :
    (token ∈ knownSamples →
      resolveToken knownSamples existsPath token
        = Except.ok (Selector.sample token))
    ∧ (token ∉ knownSamples → ∀ g : Nat, parseGroupId token = some g →
        existsPath token = false →
        resolveToken knownSamples existsPath token
          = Except.ok (Selector.group g))
    ∧ (token ∉ knownSamples → parseGroupId token = none →
        existsPath token = true →
        resolveToken knownSamples existsPath token
          = Except.ok (Selector.path token))
    ∧ (resolveToken knownSamples existsPath token
          = Except.error KErr.SelectorAmbiguousError →
        token ∉ knownSamples
        ∧ (∃ g : Nat, parseGroupId token = some g)
        ∧ existsPath token = true) := by
  refine ⟨?_, ?_, ?_, ?_⟩
  · intro hmem
    simp [resolveToken, hmem]
  · intro hmem g hg hp
    simp [resolveToken, hmem, hg, hp]
  · intro hmem hg hp
    simp [resolveToken, hmem, hg, hp]
  · intro herr
    by_cases hmem : token ∈ knownSamples
    · simp [resolveToken, hmem] at herr
    · cases hg : parseGroupId token with
      | none =>
        cases hp : existsPath token with
        | false => simp [resolveToken, hmem, hg, hp] at herr
        | true => simp [resolveToken, hmem, hg, hp] at herr
      | some g =>
        cases hp : existsPath token with
        | false => simp [resolveToken, hmem, hg, hp] at herr
        | true => exact ⟨hmem, ⟨g, rfl⟩, rfl⟩

/-- C9: in a project whose manifest records no completed filter stage,
running the extract command with the group-id token 1 fails with
PrerequisiteError and produces no output. -/
theorem C9_extract_group_requires_filter (man : Manifest)
    (existsPath : String → Bool)
    (hfilter : man.stage_kfilter = none)
    (hname : ("1") ∉ man.samples.map Prod.fst)
    (hpath : existsPath ("1") = false) :
    kextract_cmd man existsPath ("1")
      = (Except.error KErr.PrerequisiteError, []) := by
  simp [kextract_cmd, resolveToken, hname, hpath, parseGroupId,
    extract_targets, hfilter]

/-- Witness for C9 at a concrete freshly initialized project. -/
theorem C9_extract_group_requires_filter_witness :
    kextract_cmd
      { name := ("t"), workdir := ("w"), samples := [],
        stage_kcount := none, stage_kfilter := none, stage_kextract := none }
      (fun _ => false) ("1")
      = (Except.error KErr.PrerequisiteError, []) :=
  C9_extract_group_requires_filter _ _ rfl (by simp) rfl

/-- C10: the filter command ignores its force flag: two invocations that
differ only in force construct and run the filter engine with exactly
the same arguments. -/
theorem C10_filter_force_independent (parse_csv : String → List TraitRow)
    (json_file traits_csv : String) (min_cov : ℚ)
    (min_map max_map : ℚ × ℚ) (force1 force2 : Bool) :
    filter_cmd_invocation parse_csv json_file traits_csv min_cov
        min_map max_map force1
      = filter_cmd_invocation parse_csv json_file traits_csv min_cov
        min_map max_map force2 :=
  rfl
